import Mathlib

/-!
# Verification of the OAIT tool-calling orchestration engine

A shallow embedding, in Lean 4, of the tool-mediated cognitive control loop of
the OAIT tutoring application, together with theorems settling the frozen
claims about it.  Each definition translates a specific piece of the Python
source:

* `src/oait/api/openrouter.py` — `OpenRouterClient.chat_with_tools`
  (the bounded tool-resolution loop and per-call dispatch);
* `src/oait/server/websocket_server.py` — `process_client_response` and the
  `finally` cleanup of `websocket_endpoint`;
* `src/oait/tools/ai_tools.py` — `AIToolHandlers` (`_request_from_client`,
  `wait_for_event`, `set_observation_mode`, `update_student_model`,
  `update_student_profile`, `get_session_status`);
* `src/oait/cognitive/tool_loop.py` — `ToolOODALoop.stop` and the
  inter-cycle sleep-interval computation of `ToolOODALoop.start`;
* `src/oait/models/data_models.py` — the pydantic data models.

Machine reals (Python floats) are modelled as exact rationals; the Python
standard-library JSON codec is modelled by its outcome (a parsed value or a
`JSONDecodeError`), and `json.dumps` by the injective constructor
`PyStr.jdump`.
-/

namespace OAIT

/-- A JSON value, the common currency of tool arguments and results. -/
inductive JValue where
  | jnull
  | jbool (b : Bool)
  | jnum (q : ℚ)
  | jstr (s : String)
  | jarr (elems : List JValue)
  | jobj (fields : List (String × JValue))

/-- A Python string that is either a plain literal or the output of
`json.dumps` on a value.  `json.dumps` is an injective stdlib encoder; we keep
its argument rather than re-implementing the encoding. -/
inductive PyStr where
  | lit (s : String)
  | jdump (v : JValue)

/-- Look up a key of a JSON object (`find?` mirrors Python dict access on the
objects we build, whose keys are unique). -/
def jobjLookup : JValue → String → Option JValue
  | JValue.jobj fields, k => (fields.find? (fun p => p.1 == k)).map (fun p => p.2)
  | _, _ => none

/-- The error message of a serialized single-field error object, if the
string is one.  Used to compare tool-result contents without decidable
equality on whole JSON trees. -/
def errorMessageOf : PyStr → Option String
  | PyStr.jdump (JValue.jobj [(k, JValue.jstr s)]) => if k = "error" then some s else none
  | _ => none

/-! ## Tool calls and dispatch — `OpenRouterClient.chat_with_tools`

`openrouter.py` lines 151-184: each requested call carries an `id`, a function
`name` and an `arguments` string.  The string is fed to `json.loads`, which
either yields a value or raises `json.JSONDecodeError`; a `ToolCall` carries
that outcome. -/

/-- Outcome of `json.loads` on a tool call's arguments string. -/
inductive ParsedArgs where
  | ok (v : JValue)
  | jsonDecodeError (e : String)

/-- One tool-call request from the reasoner (`tool_call.get("id")`,
`function.name`, `function.arguments`). -/
structure ToolCall where
  id : String
  name : String
  arguments : ParsedArgs

/-- A handler's Python return value: either already a `str` (passed through
unchanged) or any other value (serialized with `json.dumps`). -/
inductive HandlerRet where
  | str (s : String)
  | val (v : JValue)

/-- Result of awaiting a handler: a return value, or an exception whose
`str(e)` is `e` (caught by the `except Exception` arm of the dispatch loop). -/
inductive HandlerOutcome where
  | ok (r : HandlerRet)
  | exn (e : String)

/-- A tool handler, invoked with the parsed arguments object. -/
abbrev Handler := JValue → HandlerOutcome

/-- The `tool_handlers` dict: tool name to handler, unique keys. -/
abbrev Handlers := List (String × Handler)

/-- Python `tool_name in tool_handlers` / `tool_handlers[tool_name]`. -/
def lookupHandler (hs : Handlers) (name : String) : Option Handler :=
  (hs.find? (fun p => p.1 == name)).map (fun p => p.2)

/-- `result_str = json.dumps(result) if not isinstance(result, str) else result`. -/
def serializeResult : HandlerRet → PyStr
  | HandlerRet.str s => PyStr.lit s
  | HandlerRet.val v => PyStr.jdump v

/-- `json.dumps({"error": f"Unknown tool: {tool_name}"})` (line 169). -/
def unknownToolResult (name : String) : PyStr :=
  PyStr.jdump (JValue.jobj [("error", JValue.jstr (("Unknown tool: ") ++ name))])

/-- `json.dumps({"error": f"Invalid arguments: {e}"})` (line 173). -/
def invalidArgsResult (e : String) : PyStr :=
  PyStr.jdump (JValue.jobj [("error", JValue.jstr (("Invalid arguments: ") ++ e))])

/-- `json.dumps({"error": str(e)})` (line 176). -/
def exnResult (e : String) : PyStr :=
  PyStr.jdump (JValue.jobj [("error", JValue.jstr e)])

/-- The body of the `for tool_call in tool_calls` loop (lines 159-176):
parse the arguments; on parse failure synthesize an error result without
touching any handler; otherwise look the handler up by name, invoking it when
present and synthesizing the unknown-tool error when absent.  The second
component records the handler invocation made for this call, if any. -/
def dispatchToolCall (hs : Handlers) (tc : ToolCall) : PyStr × Option (String × JValue) :=
  match tc.arguments with
  | ParsedArgs.jsonDecodeError e => (invalidArgsResult e, none)
  | ParsedArgs.ok args =>
    match lookupHandler hs tc.name with
    | some h =>
      match h args with
      | HandlerOutcome.ok r => (serializeResult r, some (tc.name, args))
      | HandlerOutcome.exn e => (exnResult e, some (tc.name, args))
    | none => (unknownToolResult tc.name, none)

/-! ## Message history and the bounded chat loop -/

/-- Message roles used by the loop. -/
inductive Role where
  | system
  | user
  | assistant
  | tool

/-- One entry of the running message transcript. -/
structure Message where
  role : Role
  content : Option PyStr := none
  tool_calls : List ToolCall := []
  tool_call_id : Option String := none

/-- The message of the reasoner's first choice
(`response.get("choices", [{}])[0].get("message", {})`); an absent or null
`tool_calls` field is the empty list. -/
structure RMessage where
  content : Option PyStr := none
  tool_calls : List ToolCall := []

/-- One reasoner response: first-choice message and completion reason. -/
structure Response where
  message : RMessage
  finish_reason : Option String := none

/-- The assistant turn appended before executing tool calls (lines 144-148). -/
def assistantTurn (rm : RMessage) : Message :=
  { role := Role.assistant, content := rm.content, tool_calls := rm.tool_calls }

/-- The per-call tool-result turn (lines 180-184), tagged with the call's id. -/
def toolTurn (tc : ToolCall) (content : PyStr) : Message :=
  { role := Role.tool, content := some content, tool_call_id := some tc.id }

/-- The dispatch pass over one response's tool calls: one tool-result turn per
call, in request order, plus the list of handler invocations performed. -/
def processToolCalls (hs : Handlers) (tcs : List ToolCall) :
    List Message × List (String × JValue) :=
  (tcs.map (fun tc => toolTurn tc (dispatchToolCall hs tc).1),
   tcs.filterMap (fun tc => (dispatchToolCall hs tc).2))

/-- The remote reasoner as seen through `self.chat(messages, tools,
temperature)`: a response determined by the submitted message history (the
tool catalog and temperature are fixed arguments of that call). -/
abbrev Reasoner := List Message → Response

/-- The `while iteration < max_iterations` loop of `chat_with_tools`
(lines 116-187), with the remaining iteration budget as fuel and the responses
obtained so far as the trace.  Terminal case (line 135): no tool calls
(Python truthiness, `isEmpty`) or completion reason `"stop"`.  At fuel 0 the
loop exits and returns the last response obtained (line 187); `getLast?` of an
empty trace is `none`, the `NameError` a zero-iteration budget would hit. -/
def runChatAux (reasoner : Reasoner) (hs : Handlers) :
    ℕ → List Message → List Response → Option Response × List Response
  | 0, _msgs, trace => (trace.getLast?, trace)
  | Nat.succ fuel, msgs, trace =>
    let response := reasoner msgs
    if response.message.tool_calls.isEmpty ∨ response.finish_reason = some "stop" then
      (some response, trace ++ [response])
    else
      runChatAux reasoner hs fuel
        ((msgs ++ [assistantTurn response.message]) ++
          (processToolCalls hs response.message.tool_calls).1)
        (trace ++ [response])

/-- `chat_with_tools(messages, tools, tool_handlers, temperature,
max_iterations)`: the returned response together with the trace of reasoner
round-trips performed. -/
def runChat (reasoner : Reasoner) (hs : Handlers) (messages : List Message)
    (maxIterations : ℕ) : Option Response × List Response :=
  runChatAux reasoner hs maxIterations messages []

/-! ## Pending-request table — transport bridge

`websocket_server.py` keeps `pending_requests: Dict[str, asyncio.Future]` per
connection; `ai_tools.py` `_request_from_client` registers a future under a
fresh correlation id, sends the request, awaits the future with a timeout and
pops the entry in a `finally` block. -/

/-- The state of one `asyncio.Future` in the pending table. -/
inductive FutureState where
  | pending
  | resolved (data : JValue)

/-- The `pending_requests` dict: correlation id to future, unique keys. -/
abbrev PendingTable := List (String × FutureState)

/-- Dict lookup by correlation id. -/
def tableLookup (tbl : PendingTable) (rid : String) : Option FutureState :=
  (tbl.find? (fun p => p.1 == rid)).map (fun p => p.2)

/-- The table's key set. -/
def tableKeys (tbl : PendingTable) : List String :=
  tbl.map (fun p => p.1)

/-- `future.set_result(data)` on the future registered under `rid`. -/
def setFutureResult (tbl : PendingTable) (rid : String) (data : JValue) : PendingTable :=
  tbl.map (fun p => if p.1 = rid then (p.1, FutureState.resolved data) else p)

/-- An inbound client message as handled by `process_client_response`:
its `request_id` field, and the whole decoded message dict `data` (what is
passed to `set_result`). -/
structure InboundMessage where
  request_id : Option String
  body : JValue

/-- `process_client_response` (`websocket_server.py` lines 278-286):
`if request_id and request_id in pending_requests:` resolve the future with
the message, `else` log `Unknown request_id` and drop the message.
`set_result` on a future that is no longer pending raises
`InvalidStateError`, modelled as the `error` case.  The second component of a
successful result is the warning logged, if any. -/
def processClientResponse (msg : InboundMessage) (tbl : PendingTable) :
    Except String (PendingTable × Option String) :=
  match msg.request_id with
  | some rid =>
    if rid ≠ "" ∧ (tableLookup tbl rid).isSome then
      match tableLookup tbl rid with
      | some FutureState.pending =>
        Except.ok (setFutureResult tbl rid msg.body, none)
      | _ => Except.error ("InvalidStateError")
    else Except.ok (tbl, some (("Unknown request_id: ") ++ rid))
  | none => Except.ok (tbl, some ("Unknown request_id: None"))

/-- Registration step of `_request_from_client` (`ai_tools.py` lines 942-947):
bump the counter, form `tool_req_{n}`, insert a fresh pending future before
the request is sent. -/
def requestFromClientRegister (tbl : PendingTable) (counter : ℕ) :
    PendingTable × ℕ × String :=
  let counter' := counter + 1
  let rid := ("tool_req_") ++ toString counter'
  (tbl ++ [(rid, FutureState.pending)], counter', rid)

/-- How the `await asyncio.wait_for(future, timeout)` of
`_request_from_client` completes. -/
inductive AwaitOutcome where
  | resolvedIn (d : JValue)
  | timedOut
  | raised (e : String)
  | cancelled

/-- Completion of `_request_from_client` (lines 958-967): the value the
handler returns (`none` when a `CancelledError` propagates instead of a
return), and the table after the `finally` block pops the entry on every
path. -/
def requestFromClientFinish (tbl : PendingTable) (rid : String) :
    AwaitOutcome → Option JValue × PendingTable
  | AwaitOutcome.resolvedIn d =>
    (some d, tbl.filter (fun p => p.1 != rid))
  | AwaitOutcome.timedOut =>
    (some (JValue.jobj [("error", JValue.jstr ("timeout"))]),
     tbl.filter (fun p => p.1 != rid))
  | AwaitOutcome.raised e =>
    (some (JValue.jobj [("error", JValue.jstr e)]),
     tbl.filter (fun p => p.1 != rid))
  | AwaitOutcome.cancelled =>
    (none, tbl.filter (fun p => p.1 != rid))

/-! ## Loop state, stop, and the inter-cycle interval

`tool_loop.py`: `ToolOODALoop.__init__` sets `is_running = False`,
`_observation_interval = 5.0`, `_mode = "active"`; `stop()` (lines 225-228)
sets `is_running = False` and logs.  `AIToolHandlers.__init__`
(`ai_tools.py` lines 439-442) sets `ctx`, `_observation_mode = "active"` and
`_observation_interval = 5.0`. -/

/-- Mutable attributes of a `ToolOODALoop` instance. -/
structure ToolOODALoopState where
  is_running : Bool := false
  cycle_count : ℕ := 0
  message_history : List Message := []
  observation_interval : ℚ := 5
  mode : String := "active"

/-- `ToolOODALoop.stop` (lines 225-228): set `self.is_running = False`. -/
def ToolOODALoop.stop (s : ToolOODALoopState) : ToolOODALoopState :=
  { s with is_running := false }

/-- Mutable attributes of an `AIToolHandlers` instance. -/
structure HandlersState where
  observation_mode : String := "active"
  observation_interval : ℚ := 5

/-- An `AIToolHandlers` as constructed by `__init__`. -/
def initialHandlersState : HandlersState := {}

/-- Instance attributes set on every `AIToolHandlers` by `__init__`
(lines 439-442), the domain of `hasattr` on such an object. -/
def aiToolHandlersInitAttrs : List String :=
  [("ctx"), ("_observation_mode"), ("_observation_interval")]

/-- Python `hasattr(handlers, name)` for an `AIToolHandlers` instance. -/
def aiToolHandlersHasAttr (name : String) : Bool :=
  aiToolHandlersInitAttrs.contains name

/-- The sleep-interval computation of `ToolOODALoop.start` after a cycle
(lines 203-213): pick 2.0 for `observe_again` and the loop's configured
interval otherwise, then, `if hasattr(self.handlers, '_observation_interval')`,
replace the chosen value by the handlers' interval. -/
def nextSleepInterval (finalAction : Option String) (loop : ToolOODALoopState)
    (handlers : HandlersState) : ℚ :=
  let interval : ℚ :=
    if finalAction = some ("observe_again") then 2
    else if finalAction = some ("wait") then loop.observation_interval
    else loop.observation_interval
  if aiToolHandlersHasAttr ("_observation_interval") then handlers.observation_interval
  else interval

/-- `AIToolHandlers.set_observation_mode` (`ai_tools.py` lines 890-912):
store the mode; take the explicit interval override when given, else the
default cadence of the mode. -/
def setObservationMode (h : HandlersState) (mode : String)
    (interval_seconds : Option ℚ) : HandlersState × JValue :=
  let h1 := { h with observation_mode := mode }
  let h2 :=
    match interval_seconds with
    | some i => { h1 with observation_interval := i }
    | none =>
      if mode = "active" then { h1 with observation_interval := 3 }
      else if mode = "passive" then { h1 with observation_interval := 10 }
      else if mode = "intervention" then { h1 with observation_interval := 1 }
      else h1
  (h2, JValue.jobj [("mode", JValue.jstr mode),
                    ("interval_seconds", JValue.jnum h2.observation_interval)])

/-- Per-connection state owned by `websocket_endpoint`: the pending table,
the loop instance, and whether the connection is registered in
`active_connections`. -/
structure WsSession where
  pending_requests : PendingTable
  loop : ToolOODALoopState
  connectionActive : Bool

/-- The `finally` block of `websocket_endpoint`
(`websocket_server.py` lines 339-348): `await tool_ooda.stop()`, cancel the
`ai_task` and await it, delete the connection entry.  Its direct effect on
session data: the loop flag is cleared and the connection deregistered; no
statement of the block reads or writes `pending_requests`. -/
def websocketDisconnectCleanup (s : WsSession) : WsSession :=
  { s with loop := ToolOODALoop.stop s.loop, connectionActive := false }

/-! ## Data models — `data_models.py` -/

/-- Enum `PatienceLevel` (values low, medium, high). -/
inductive PatienceLevel where
  | low
  | medium
  | high

/-- Enum `LearningStyle` (values visual, verbal, kinesthetic). -/
inductive LearningStyle where
  | visual
  | verbal
  | kinesthetic

/-- Enum `CompetencyLevel` (values unknown, struggling, mastered). -/
inductive CompetencyLevel where
  | unknown
  | struggling
  | mastered

/-- The dynamic value held by `PedagogyProfile.patience_level`: the field is
declared with the `PatienceLevel` enum, but `update_student_profile` assigns a
clamped float, and pydantic does not validate plain attribute assignment, so
either may be stored. -/
inductive PatienceValue where
  | enum (v : PatienceLevel)
  | num (q : ℚ)

/-- `PedagogyProfile` with its declared fields and defaults. -/
structure PedagogyProfile where
  patience_level : PatienceValue := PatienceValue.enum PatienceLevel.medium
  preferred_learning_style : LearningStyle := LearningStyle.visual
  preferred_analogies : String := ""
  response_to_correction : String := ""
  optimal_intervention_delay : ℚ := 3

/-- `SessionHistoryEntry`. -/
structure SessionHistoryEntry where
  date : ℚ
  topics_covered : List String := []
  breakthroughs : List String := []
  persistent_errors : List String := []

/-- `StudentModel`: the long-lived per-student profile. -/
structure StudentModel where
  student_id : String
  competencies : List (String × CompetencyLevel) := []
  pedagogy_profile : PedagogyProfile := {}
  session_history : List SessionHistoryEntry := []
  created_at : ℚ := 0
  updated_at : ℚ := 0

/-- `TranscriptEntry` (text plus timestamp). -/
structure TranscriptEntry where
  text : String
  timestamp : ℚ

/-- `SessionState`: per-session working memory.  The internal-monologue and
problem-analysis fields, and the runtime buffer/detector handles, are carried
opaquely by count or omitted; no verified operation reads them. -/
structure SessionState where
  session_id : String
  student_id : String
  current_problem_image : Option String := none
  last_significant_change : ℚ := 0
  student_speech_buffer : List TranscriptEntry := []
  silence_duration : ℚ := 0
  intervention_candidates : List String := []
  student_is_speaking : Bool := false
  student_is_writing : Bool := false
  last_intervention_time : ℚ := 0

/-- `SessionState.add_transcript` (`data_models.py` lines 186-188): append a
`TranscriptEntry` to `student_speech_buffer`. -/
def SessionState.add_transcript (s : SessionState) (text : String)
    (timestamp : ℚ) : SessionState :=
  { s with student_speech_buffer :=
      s.student_speech_buffer ++ [{ text := text, timestamp := timestamp }] }

/-- Fold a batch of `add_transcript` calls over a session state. -/
def applyTranscripts (s : SessionState) : List (String × ℚ) → SessionState
  | [] => s
  | e :: rest => applyTranscripts (s.add_transcript e.1 e.2) rest

/-- The attribute names a `SessionState` instance exposes: its pydantic
fields, the two runtime handles, and its methods, as declared in
`data_models.py` lines 165-197.  No attribute is named `transcripts`. -/
def sessionStateAttrNames : List String :=
  [("session_id"), ("student_id"), ("current_problem_image"),
   ("last_significant_change"), ("student_speech_buffer"), ("silence_duration"),
   ("ai_internal_monologue"), ("current_problem_analysis"),
   ("intervention_candidates"), ("student_is_speaking"), ("student_is_writing"),
   ("last_intervention_time"), ("started_at"), ("transcript_buffer"),
   ("silence_detector"), ("add_transcript"), ("add_monologue"),
   ("get_recent_transcripts")]

/-- The value classes an attribute access can yield, as far as
`get_session_status` needs: the transcript list, or some other attribute. -/
inductive SessionAttr where
  | transcriptList (l : List TranscriptEntry)
  | other

/-- Python attribute access on a `SessionState`: defined attributes yield a
value (`student_speech_buffer` yields the transcript list), anything else —
in particular `transcripts` — is absent, so `hasattr` is false. -/
def SessionState.getAttr (s : SessionState) (name : String) : Option SessionAttr :=
  if sessionStateAttrNames.contains name then
    if name = "student_speech_buffer" then
      some (SessionAttr.transcriptList s.student_speech_buffer)
    else some SessionAttr.other
  else none

/-- Python `len` on an attribute value (only ever reached on lists here). -/
def attrLen : SessionAttr → ℕ
  | SessionAttr.transcriptList l => l.length
  | SessionAttr.other => 0

/-- The `transcript_count` expression of `get_session_status`
(`ai_tools.py` line 631): `len(state.transcripts) if hasattr(state,
'transcripts') else 0`. -/
def transcriptCountOf (s : SessionState) : ℕ :=
  match s.getAttr ("transcripts") with
  | some a => attrLen a
  | none => 0

/-- `AIToolHandlers.get_session_status` (`ai_tools.py` lines 616-633).
`now` is `time.time()`; `lastSpeech` and `lastWb` are
`ctx.last_speech_time` and `ctx.last_whiteboard_change` (0 when never set,
and Python's `if x` treats 0 as false, giving `None`). -/
def getSessionStatus (s : SessionState) (now lastSpeech lastWb : ℚ)
    (mode : String) : JValue :=
  JValue.jobj
    [("session_id", JValue.jstr s.session_id),
     ("student_id", JValue.jstr s.student_id),
     ("silence_duration", JValue.jnum s.silence_duration),
     ("student_is_speaking", JValue.jbool s.student_is_speaking),
     ("student_is_writing", JValue.jbool s.student_is_writing),
     ("time_since_last_speech",
       if lastSpeech ≠ 0 then JValue.jnum (now - lastSpeech) else JValue.jnull),
     ("time_since_whiteboard_change",
       if lastWb ≠ 0 then JValue.jnum (now - lastWb) else JValue.jnull),
     ("transcript_count", JValue.jnum (transcriptCountOf s : ℚ)),
     ("observation_mode", JValue.jstr mode)]

/-! ## `update_student_model` — `ai_tools.py` lines 656-700 -/

/-- Python truthiness of an optional string (`if note:`). -/
def pyTruthyStr : Option String → Bool
  | none => false
  | some s => s ≠ ""

/-- Python truthiness of an optional dict (`if concept_mastery:`). -/
def pyTruthyDict : Option (List (String × ℚ)) → Bool
  | none => false
  | some l => !l.isEmpty

/-- Keyword arguments of `update_student_model` (all default `None`). -/
structure UpdateModelArgs where
  understanding_delta : Option ℚ := none
  frustration_delta : Option ℚ := none
  engagement_delta : Option ℚ := none
  note : Option String := none
  concept_mastery : Option (List (String × ℚ)) := none

/-- The `updates` dict built by `update_student_model` (lines 671-689), in
insertion order.  Each provided argument is recorded in the dict; none is
written to the student model. -/
def modelUpdates (args : UpdateModelArgs) : List (String × JValue) :=
  (match args.understanding_delta with
   | some d => [("understanding_delta", JValue.jnum d)]
   | none => []) ++
  (match args.frustration_delta with
   | some d => [("frustration_delta", JValue.jnum d)]
   | none => []) ++
  (match args.engagement_delta with
   | some d => [("engagement_delta", JValue.jnum d)]
   | none => []) ++
  (if pyTruthyStr args.note then [("note", JValue.jstr (args.note.getD ""))]
   else []) ++
  (if pyTruthyDict args.concept_mastery then
     [("concept_mastery",
       JValue.jobj ((args.concept_mastery.getD []).map
         (fun p => (p.1, JValue.jnum p.2))))]
   else [])

/-- What a call to `update_student_model` produces: the returned payload, the
student model afterwards, and whether `repository.save(model)` ran. -/
structure UpdateModelOutcome where
  result : JValue
  model : Option StudentModel
  saveCalled : Bool

/-- `AIToolHandlers.update_student_model` (lines 656-700): with no model
loaded, return an error payload; otherwise build the `updates` dict from the
provided arguments, call `repository.save(model)` when a repository is
present and the dict is non-empty (`saveRes` is that call's outcome), and
return `updated`/`changes`.  The student model itself is never written. -/
def updateStudentModel (args : UpdateModelArgs) (model : Option StudentModel)
    (hasRepo : Bool) (saveRes : Except String Unit) : UpdateModelOutcome :=
  match model with
  | none =>
    { result := JValue.jobj [("error", JValue.jstr ("No student model loaded"))],
      model := none, saveCalled := false }
  | some m =>
    let updates := modelUpdates args
    let saveCalled := hasRepo && !updates.isEmpty
    let updates' :=
      if saveCalled then
        match saveRes with
        | Except.ok _ => updates ++ [("saved", JValue.jbool true)]
        | Except.error e => updates ++ [("save_error", JValue.jstr e)]
      else updates
    { result := JValue.jobj [("updated", JValue.jbool true),
                             ("changes", JValue.jobj updates')],
      model := some m,
      saveCalled := saveCalled }

/-! ## `update_student_profile` — `ai_tools.py` lines 733-788 -/

/-- `LearningStyle(learning_style)`: enum construction, `ValueError` when the
string is not a member value. -/
def learningStyleOfString (s : String) : Option LearningStyle :=
  if s = "visual" then some LearningStyle.visual
  else if s = "verbal" then some LearningStyle.verbal
  else if s = "kinesthetic" then some LearningStyle.kinesthetic
  else none

/-- `max(0.0, min(1.0, x))`. -/
def clamp01 (q : ℚ) : ℚ := max 0 (min 1 q)

/-- Keyword arguments of `update_student_profile` (all default `None`). -/
structure UpdateProfileArgs where
  learning_style : Option String := none
  patience_level : Option ℚ := none
  optimal_intervention_delay : Option ℚ := none
  hint_preference : Option String := none
  encouragement_frequency : Option ℚ := none

/-- Exceptions that escape `update_student_profile` uncaught. -/
inductive PyExn where
  /-- `from ..models.data_models import HintPreference` raises:
  `data_models.py` defines no `HintPreference`. -/
  | importErrorHintPreference
  /-- `profile.encouragement_frequency = ...` raises: `PedagogyProfile`
  declares no such field and pydantic rejects the assignment. -/
  | noFieldEncouragementFrequency

/-- What a call to `update_student_profile` produces: the returned payload
(or the exception that escaped), the student model afterwards (in-place
mutations made before a raise persist), and whether `repository.save` ran. -/
structure ProfileCallOutcome where
  result : Except PyExn JValue
  model : Option StudentModel
  saveCalled : Bool

/-- `AIToolHandlers.update_student_profile` (lines 733-788), argument
branches in source order.  `learning_style`: enum parse, field-scoped error
on `ValueError`.  `patience_level`: store `max(0.0, min(1.0, p))` (pydantic
does not validate the assignment, so the float is stored as-is).
`optimal_intervention_delay`: store `max(0.0, d)`.  `hint_preference`: the
attempted module-level lookup of the missing `HintPreference` raises out of
the handler.
`encouragement_frequency`: assigning the undeclared field raises out of the
handler.  Finally save when a repository is present and `updates` is
non-empty, and return `updated`/`changes`. -/
def updateStudentProfile (args : UpdateProfileArgs) (model : Option StudentModel)
    (hasRepo : Bool) (saveRes : Except String Unit) : ProfileCallOutcome :=
  match model with
  | none =>
    { result := Except.ok (JValue.jobj
        [("error", JValue.jstr ("No student model loaded"))]),
      model := none, saveCalled := false }
  | some m =>
    let st0 : PedagogyProfile × List (String × JValue) := (m.pedagogy_profile, [])
    let st1 :=
      match args.learning_style with
      | none => st0
      | some ls =>
        match learningStyleOfString ls with
        | some v =>
          ({ st0.1 with preferred_learning_style := v },
           st0.2 ++ [("learning_style", JValue.jstr ls)])
        | none =>
          (st0.1, st0.2 ++ [("learning_style_error",
                             JValue.jstr (("Invalid style: ") ++ ls))])
    let st2 :=
      match args.patience_level with
      | none => st1
      | some p =>
        ({ st1.1 with patience_level := PatienceValue.num (clamp01 p) },
         st1.2 ++ [("patience_level", JValue.jnum (clamp01 p))])
    let st3 :=
      match args.optimal_intervention_delay with
      | none => st2
      | some d =>
        ({ st2.1 with optimal_intervention_delay := max 0 d },
         st2.2 ++ [("optimal_intervention_delay", JValue.jnum (max 0 d))])
    match args.hint_preference with
    | some _ =>
      { result := Except.error PyExn.importErrorHintPreference,
        model := some { m with pedagogy_profile := st3.1 },
        saveCalled := false }
    | none =>
      match args.encouragement_frequency with
      | some _ =>
        { result := Except.error PyExn.noFieldEncouragementFrequency,
          model := some { m with pedagogy_profile := st3.1 },
          saveCalled := false }
      | none =>
        let saveCalled := hasRepo && !st3.2.isEmpty
        let updates' :=
          if saveCalled then
            match saveRes with
            | Except.ok _ => st3.2 ++ [("saved", JValue.jbool true)]
            | Except.error e => st3.2 ++ [("save_error", JValue.jstr e)]
          else st3.2
        { result := Except.ok (JValue.jobj
            [("updated", JValue.jbool true),
             ("changes", JValue.jobj updates')]),
          model := some { m with pedagogy_profile := st3.1 },
          saveCalled := saveCalled }

/-! ## `wait_for_event` — `ai_tools.py` lines 833-888

Time is modelled as an exact rational clock starting at 0 (the handler's
`start_time`); every `await` advances it: `asyncio.sleep(d)` by `d`, each
transport round-trip by an environment-supplied nonnegative duration.  The
environment also supplies what the collaborators report at each poll
iteration. -/

/-- What the collaborators and transport report during poll iteration `n`,
and how long each awaited check takes. -/
structure PollEnv where
  /-- duration of the `status` request of the speech check -/
  statusTime : ℕ → ℚ
  /-- `data.audio_segments` reported to the speech check -/
  audioSegments : ℕ → ℕ
  /-- duration of the `whiteboard` request -/
  wbTime : ℕ → ℚ
  /-- `has_changes` reported by the whiteboard check -/
  wbHasChanges : ℕ → Bool
  /-- `silence_duration` reported by `get_session_status` -/
  silenceDuration : ℕ → ℚ
  /-- duration of the `status` request of the any-activity check -/
  anyTime : ℕ → ℚ
  /-- `data.audio_segments` reported to the any-activity check -/
  anyAudioSegments : ℕ → ℕ
  /-- `data.whiteboard_has_changes` reported to the any-activity check -/
  anyWbChanges : ℕ → Bool

/-- One conditional check block of the poll loop: skipped when the event name
was not requested; otherwise spend `cost` on the lookup and fire `label` when
`hit`.  A previous block having fired short-circuits the rest. -/
def checkStep (requested : Bool) (cost : ℚ) (hit : Bool) (label : String) :
    ℚ × Option String → ℚ × Option String
  | (t, some e) => (t, some e)
  | (t, none) =>
    if requested then
      (t + cost, if hit then some label else none)
    else (t, none)

/-- The four event checks of one poll iteration, in source order (lines
852-877): speech, whiteboard_change, silence (a local state read, no
transport), any_activity. -/
def pollChecks (env : PollEnv) (events : List String) (n : ℕ) (t : ℚ) :
    ℚ × Option String :=
  checkStep (events.contains ("any_activity")) (env.anyTime n)
      (decide (0 < env.anyAudioSegments n) || env.anyWbChanges n) ("any_activity")
    (checkStep (events.contains ("silence")) 0
        (decide (3 < env.silenceDuration n)) ("silence")
      (checkStep (events.contains ("whiteboard_change")) (env.wbTime n)
          (env.wbHasChanges n) ("whiteboard_change")
        (checkStep (events.contains ("speech")) (env.statusTime n)
            (decide (0 < env.audioSegments n)) ("speech")
          (t, none))))

/-- The `while (time.time() - start_time) < timeout_seconds` poll loop
(lines 850-879): run the checks, return the fired event, else sleep the
0.5 s poll interval and continue.  `fuel` bounds the recursion; exhaustion
returns with no event, exactly as a timeout does, and cannot occur before
the timeout when `fuel` exceeds `2 * timeout`. -/
def waitLoop (env : PollEnv) (events : List String) (timeout : ℚ) :
    ℕ → ℕ → ℚ → Option String × ℚ
  | 0, _n, t => (none, t)
  | Nat.succ fuel, n, t =>
    if t < timeout then
      match pollChecks env events n t with
      | (t1, some e) => (some e, t1)
      | (t1, none) => waitLoop env events timeout fuel (n + 1) (t1 + 1 / 2)
    else (none, t)

/-- `AIToolHandlers.wait_for_event` (lines 833-888), reduced to its clock:
sleep `min_wait_seconds` unconditionally when positive, then poll.  The
second component is the elapsed time at return (`wait_duration`). -/
def waitForEvent (env : PollEnv) (events : List String)
    (timeoutSeconds minWaitSeconds : ℚ) (fuel : ℕ) : Option String × ℚ :=
  let t0 : ℚ := 0
  let t1 := if minWaitSeconds > 0 then t0 + minWaitSeconds else t0
  waitLoop env events timeoutSeconds fuel 0 t1

/-! ## Theorems -/

/-- When the reasoner always requests a tool call and never reports `stop`,
the chat loop never hits its terminal case: it spends its whole fuel, one
response per iteration, and exits with the last response of the trace. -/
theorem runChatAux_always_tools (reasoner : Reasoner) (hs : Handlers)
    (H : ∀ msgs, (reasoner msgs).message.tool_calls ≠ [] ∧
                 (reasoner msgs).finish_reason ≠ some "stop") :
    ∀ (fuel : ℕ) (msgs : List Message) (trace : List Response),
      ∃ rs : List Response, rs.length = fuel ∧
        runChatAux reasoner hs fuel msgs trace =
          ((trace ++ rs).getLast?, trace ++ rs) := by
  intro fuel
  induction fuel with
  | zero =>
    intro msgs trace
    exact ⟨[], rfl, by simp [runChatAux]⟩
  | succ n ih =>
    intro msgs trace
    have h1 := (H msgs).1
    have h2 := (H msgs).2
    have hEmpty : (reasoner msgs).message.tool_calls.isEmpty = false := by
      cases hcase : (reasoner msgs).message.tool_calls with
      | nil => exact absurd hcase h1
      | cons a t => rfl
    obtain ⟨rs, hlen, heq⟩ := ih
      ((msgs ++ [assistantTurn (reasoner msgs).message]) ++
        (processToolCalls hs (reasoner msgs).message.tool_calls).1)
      (trace ++ [reasoner msgs])
    refine ⟨reasoner msgs :: rs, by simp [hlen], ?_⟩
    rw [runChatAux]
    rw [if_neg (by simp [hEmpty, h2])]
    rw [heq]
    simp

/-- C1: for every initial message list, handler mapping and
`max_iterations ≥ 1` (the tool catalog and temperature being fixed arguments
of the underlying `chat` call), if the reasoner's every response requests at
least one tool call and never has completion reason `"stop"`, then
`chat_with_tools` performs at most `max_iterations` reasoner round-trips —
in fact exactly that many — and when the ceiling is hit it returns the last
response obtained from the reasoner rather than raising. -/
theorem C1_chat_with_tools_bounded (reasoner : Reasoner) (hs : Handlers)
    (messages : List Message) (maxIterations : ℕ)
    (hIter : 1 ≤ maxIterations)
    (H : ∀ msgs, (reasoner msgs).message.tool_calls ≠ [] ∧
                 (reasoner msgs).finish_reason ≠ some "stop") :
    (runChat reasoner hs messages maxIterations).2.length ≤ maxIterations ∧
    (runChat reasoner hs messages maxIterations).2.length = maxIterations ∧
    (runChat reasoner hs messages maxIterations).1 =
      (runChat reasoner hs messages maxIterations).2.getLast? ∧
    ((runChat reasoner hs messages maxIterations).1).isSome = true := by
  obtain ⟨rs, hlen, heq⟩ :=
    runChatAux_always_tools reasoner hs H maxIterations messages []
  have hrun : runChat reasoner hs messages maxIterations = (rs.getLast?, rs) := by
    rw [runChat, heq]; simp
  have hne : rs ≠ [] := by
    intro hnil
    rw [hnil] at hlen
    simp at hlen
    omega
  refine ⟨?_, ?_, ?_, ?_⟩
  · rw [hrun]; exact le_of_eq hlen
  · rw [hrun]; exact hlen
  · rw [hrun]
  · rw [hrun]
    simpa using List.getLast?_isSome.mpr hne

/-- A reasoner that always requests one tool call and never reports stop. -/
def alwaysToolReasoner : Reasoner := fun _ =>
  { message := { content := none,
                 tool_calls := [{ id := "call_0", name := "noop",
                                  arguments := ParsedArgs.ok (JValue.jobj []) }] },
    finish_reason := some "tool_calls" }

/-- Witness for C1: with an always-tool-calling reasoner, no handlers, an
empty initial history and a ceiling of 3, the loop makes exactly 3
round-trips and returns the last response. -/
theorem C1_chat_with_tools_bounded_witness :
    1 ≤ 3 ∧
    (∀ msgs, (alwaysToolReasoner msgs).message.tool_calls ≠ [] ∧
             (alwaysToolReasoner msgs).finish_reason ≠ some "stop") ∧
    ((runChat alwaysToolReasoner [] [] 3).2.length ≤ 3 ∧
     (runChat alwaysToolReasoner [] [] 3).2.length = 3 ∧
     (runChat alwaysToolReasoner [] [] 3).1 =
       (runChat alwaysToolReasoner [] [] 3).2.getLast? ∧
     ((runChat alwaysToolReasoner [] [] 3).1).isSome = true) := by
  have H : ∀ msgs, (alwaysToolReasoner msgs).message.tool_calls ≠ [] ∧
      (alwaysToolReasoner msgs).finish_reason ≠ some "stop" := by
    intro msgs
    constructor
    · simp [alwaysToolReasoner]
    · simp [alwaysToolReasoner]
  exact ⟨by omega, H,
    C1_chat_with_tools_bounded alwaysToolReasoner [] [] 3 (by omega) H⟩

/-- A demo handler mapping registering only the `speak` tool. -/
def demoHandlers : Handlers :=
  [("speak",
    fun _ => HandlerOutcome.ok (HandlerRet.val
      (JValue.jobj [("spoken", JValue.jbool true)])))]

/-- A tool call whose name is registered nowhere and whose arguments string
is not valid JSON. -/
def unknownBadArgsCall : ToolCall :=
  { id := "call_9", name := "frobnicate",
    arguments := ParsedArgs.jsonDecodeError ("Expecting value: line 1 column 1") }

/-- C2 counterexample: a tool-call request whose function name is not a key
of the handler mapping but whose arguments payload is also malformed gets the
`Invalid arguments` error result — the parse happens before the handler
lookup — so its tool-result content is not the `Unknown tool` object the
claim requires for every unknown-name request. -/
theorem C2_counterexample :
    lookupHandler demoHandlers ("frobnicate") = none ∧
    (dispatchToolCall demoHandlers unknownBadArgsCall).1 =
      invalidArgsResult ("Expecting value: line 1 column 1") ∧
    errorMessageOf (dispatchToolCall demoHandlers unknownBadArgsCall).1 =
      some (("Invalid arguments: ") ++ ("Expecting value: line 1 column 1")) ∧
    errorMessageOf (dispatchToolCall demoHandlers unknownBadArgsCall).1 ≠
      some (("Unknown tool: ") ++ ("frobnicate")) := by
  refine ⟨rfl, rfl, by decide, by decide⟩

/-- C2 (amended): for every tool-call request whose arguments payload parses
as valid JSON and whose function name is not a key of the registered handler
mapping, dispatch produces a tool-result turn whose content is the JSON
object with the single field `error` = `Unknown tool: <name>`, invokes no
handler and never raises, and the remaining tool calls of the same response
are still processed, each producing its own turn in request order. -/
theorem C2_unknown_tool_dispatch (hs : Handlers) (pre post : List ToolCall)
    (tc : ToolCall) (args : JValue)
    (hargs : tc.arguments = ParsedArgs.ok args)
    (hunk : lookupHandler hs tc.name = none) :
    dispatchToolCall hs tc = (unknownToolResult tc.name, none) ∧
    (processToolCalls hs (pre ++ tc :: post)).1 =
      (processToolCalls hs pre).1 ++
        toolTurn tc (unknownToolResult tc.name) ::
          (processToolCalls hs post).1 := by
  have hdisp : dispatchToolCall hs tc = (unknownToolResult tc.name, none) := by
    simp [dispatchToolCall, hargs, hunk]
  refine ⟨hdisp, ?_⟩
  simp [processToolCalls, hdisp]

/-- A well-formed tool call addressed to the registered `speak` handler. -/
def speakCall : ToolCall :=
  { id := "call_2", name := "speak",
    arguments := ParsedArgs.ok (JValue.jobj [("text", JValue.jstr ("hi"))]) }

/-- A well-formed tool call addressed to a tool that is not registered. -/
def unknownCall : ToolCall :=
  { id := "call_1", name := "frobnicate",
    arguments := ParsedArgs.ok (JValue.jobj []) }

/-- Witness for C2 (amended): dispatching `frobnicate` with valid arguments
against handlers registering only `speak` yields the unknown-tool turn, and
the `speak` call after it is still processed. -/
theorem C2_unknown_tool_dispatch_witness :
    unknownCall.arguments = ParsedArgs.ok (JValue.jobj []) ∧
    lookupHandler demoHandlers unknownCall.name = none ∧
    (dispatchToolCall demoHandlers unknownCall =
       (unknownToolResult unknownCall.name, none) ∧
     (processToolCalls demoHandlers ([] ++ unknownCall :: [speakCall])).1 =
       (processToolCalls demoHandlers []).1 ++
         toolTurn unknownCall (unknownToolResult unknownCall.name) ::
           (processToolCalls demoHandlers [speakCall]).1) := by
  exact ⟨rfl, rfl,
    C2_unknown_tool_dispatch demoHandlers [] [speakCall] unknownCall
      (JValue.jobj []) rfl rfl⟩

/-- C3: for every tool-call request whose arguments payload is not valid
JSON, dispatch appends the structured `Invalid arguments` error turn for that
call without invoking any handler — the invocation log of the batch contains
exactly the invocations of the other calls — and the remaining tool calls of
the same response are still processed in request order. -/
theorem C3_malformed_args_dispatch (hs : Handlers) (pre post : List ToolCall)
    (tc : ToolCall) (e : String)
    (hbad : tc.arguments = ParsedArgs.jsonDecodeError e) :
    dispatchToolCall hs tc = (invalidArgsResult e, none) ∧
    (processToolCalls hs (pre ++ tc :: post)).1 =
      (processToolCalls hs pre).1 ++
        toolTurn tc (invalidArgsResult e) :: (processToolCalls hs post).1 ∧
    (processToolCalls hs (pre ++ tc :: post)).2 =
      (processToolCalls hs pre).2 ++ (processToolCalls hs post).2 := by
  have hdisp : dispatchToolCall hs tc = (invalidArgsResult e, none) := by
    simp [dispatchToolCall, hbad]
  refine ⟨hdisp, ?_, ?_⟩
  · simp [processToolCalls, hdisp]
  · simp [processToolCalls, hdisp]

/-- A tool call addressed to the registered `speak` handler whose arguments
string is malformed. -/
def malformedSpeakCall : ToolCall :=
  { id := "call_3", name := "speak",
    arguments := ParsedArgs.jsonDecodeError ("Unterminated string") }

/-- Witness for C3: a malformed-arguments call to the registered `speak`
tool, placed between two well-formed calls, yields the error turn in place,
no handler invocation for it, and both neighbours still processed. -/
theorem C3_malformed_args_dispatch_witness :
    malformedSpeakCall.arguments =
      ParsedArgs.jsonDecodeError ("Unterminated string") ∧
    (dispatchToolCall demoHandlers malformedSpeakCall =
       (invalidArgsResult ("Unterminated string"), none) ∧
     (processToolCalls demoHandlers
         ([speakCall] ++ malformedSpeakCall :: [unknownCall])).1 =
       (processToolCalls demoHandlers [speakCall]).1 ++
         toolTurn malformedSpeakCall (invalidArgsResult ("Unterminated string")) ::
           (processToolCalls demoHandlers [unknownCall]).1 ∧
     (processToolCalls demoHandlers
         ([speakCall] ++ malformedSpeakCall :: [unknownCall])).2 =
       (processToolCalls demoHandlers [speakCall]).2 ++
         (processToolCalls demoHandlers [unknownCall]).2) := by
  exact ⟨rfl,
    C3_malformed_args_dispatch demoHandlers [speakCall] [unknownCall]
      malformedSpeakCall ("Unterminated string") rfl⟩

/-- Resolving an id that is present resolves it: the first entry under the
id becomes `resolved data`. -/
theorem tableLookup_setFutureResult_self (tbl : PendingTable) (rid : String)
    (data : JValue) (h : (tableLookup tbl rid).isSome = true) :
    tableLookup (setFutureResult tbl rid data) rid =
      some (FutureState.resolved data) := by
  induction tbl with
  | nil => simp [tableLookup] at h
  | cons p rest ih =>
    simp only [setFutureResult, List.map_cons] at *
    by_cases hp : p.1 = rid
    · rw [if_pos hp]
      simp only [tableLookup]
      rw [List.find?_cons_of_pos _ (by simpa using hp)]
      simp
    · rw [if_neg hp]
      simp only [tableLookup] at h ⊢
      rw [List.find?_cons_of_neg _ (by simpa using hp)] at h ⊢
      exact ih h

/-- Resolving one id leaves every other id's entry untouched. -/
theorem tableLookup_setFutureResult_other (tbl : PendingTable) (rid : String)
    (data : JValue) (other : String) (hne : other ≠ rid) :
    tableLookup (setFutureResult tbl rid data) other = tableLookup tbl other := by
  induction tbl with
  | nil => rfl
  | cons p rest ih =>
    simp only [setFutureResult, List.map_cons] at *
    by_cases hpo : p.1 = other
    · have hp : ¬p.1 = rid := by rw [hpo]; exact hne
      rw [if_neg hp]
      simp only [tableLookup]
      rw [List.find?_cons_of_pos _ (by simpa using hpo),
          List.find?_cons_of_pos _ (by simpa using hpo)]
    · by_cases hp : p.1 = rid
      · rw [if_pos hp]
        simp only [tableLookup]
        rw [List.find?_cons_of_neg _ (by simpa using hpo),
            List.find?_cons_of_neg _ (by simpa using hpo)]
        exact ih
      · rw [if_neg hp]
        simp only [tableLookup]
        rw [List.find?_cons_of_neg _ (by simpa using hpo),
            List.find?_cons_of_neg _ (by simpa using hpo)]
        exact ih

/-- Popping one id from the table leaves every other id's entry untouched. -/
theorem tableLookup_filter_other (tbl : PendingTable) (rid : String)
    (other : String) (hne : other ≠ rid) :
    tableLookup (tbl.filter (fun p => p.1 != rid)) other =
      tableLookup tbl other := by
  induction tbl with
  | nil => rfl
  | cons p rest ih =>
    rw [List.filter_cons]
    by_cases hp : p.1 = rid
    · rw [if_neg (by simpa using hp)]
      have hpo : ¬(p.1 == other) = true := by
        simp only [beq_iff_eq]
        rw [hp]
        exact fun hc => hne hc.symm
      simp only [tableLookup]
      rw [@List.find?_cons_of_neg _ (fun q => q.1 == other) p rest hpo]
      exact ih
    · rw [if_pos (by simpa using hp)]
      by_cases hpo : p.1 = other
      · simp only [tableLookup]
        rw [@List.find?_cons_of_pos _ (fun q => q.1 == other) p
              (rest.filter (fun q => q.1 != rid)) (by simpa using hpo),
            @List.find?_cons_of_pos _ (fun q => q.1 == other) p rest
              (by simpa using hpo)]
      · simp only [tableLookup]
        rw [@List.find?_cons_of_neg _ (fun q => q.1 == other) p
              (rest.filter (fun q => q.1 != rid)) (by simpa using hpo),
            @List.find?_cons_of_neg _ (fun q => q.1 == other) p rest
              (by simpa using hpo)]
        exact ih

/-- After the pop, the id is gone from the key set. -/
theorem not_mem_tableKeys_filter (tbl : PendingTable) (rid : String) :
    rid ∉ tableKeys (tbl.filter (fun p => p.1 != rid)) := by
  intro hmem
  rw [tableKeys] at hmem
  obtain ⟨p, hp, hpe⟩ := List.mem_map.mp hmem
  have hkeep := (List.mem_filter.mp hp).2
  rw [hpe] at hkeep
  simp at hkeep

/-- C4: delivering an inbound response whose `request_id` matches a pending
entry resolves exactly that entry's future with the message, leaving every
other entry untouched; the suspended `_request_from_client` then returns the
message and its `finally` block removes the entry, the rest of the table
unchanged.  A response whose id matches no entry (or carries none) leaves the
table identical and is discarded with an `Unknown request_id` log entry. -/
theorem C4_pending_request_correlation (tbl : PendingTable) (rid : String)
    (data : JValue)
    (hid : rid ≠ "")
    (hpend : tableLookup tbl rid = some FutureState.pending) :
    processClientResponse ⟨some rid, data⟩ tbl =
      Except.ok (setFutureResult tbl rid data, none) ∧
    tableLookup (setFutureResult tbl rid data) rid =
      some (FutureState.resolved data) ∧
    (∀ other, other ≠ rid →
      tableLookup (setFutureResult tbl rid data) other = tableLookup tbl other) ∧
    requestFromClientFinish (setFutureResult tbl rid data) rid
        (AwaitOutcome.resolvedIn data) =
      (some data, (setFutureResult tbl rid data).filter (fun p => p.1 != rid)) ∧
    rid ∉ tableKeys
      ((setFutureResult tbl rid data).filter (fun p => p.1 != rid)) ∧
    (∀ other, other ≠ rid →
      tableLookup
          ((setFutureResult tbl rid data).filter (fun p => p.1 != rid)) other =
        tableLookup tbl other) ∧
    (∀ missing, tableLookup tbl missing = none →
      processClientResponse ⟨some missing, data⟩ tbl =
        Except.ok (tbl, some (("Unknown request_id: ") ++ missing))) ∧
    processClientResponse ⟨none, data⟩ tbl =
      Except.ok (tbl, some ("Unknown request_id: None")) := by
  have hsome : (tableLookup tbl rid).isSome = true := by rw [hpend]; rfl
  refine ⟨?_, ?_, ?_, rfl, ?_, ?_, ?_, rfl⟩
  · simp [processClientResponse, hid, hpend]
  · exact tableLookup_setFutureResult_self tbl rid data hsome
  · exact fun other hne => tableLookup_setFutureResult_other tbl rid data other hne
  · exact not_mem_tableKeys_filter _ rid
  · intro other hne
    rw [tableLookup_filter_other _ rid other hne]
    exact tableLookup_setFutureResult_other tbl rid data other hne
  · intro missing hmiss
    simp [processClientResponse, hmiss]

/-- A concrete pending table with two outstanding requests. -/
def demoPendingTable : PendingTable :=
  [("tool_req_1", FutureState.pending), ("tool_req_2", FutureState.pending)]

/-- A concrete inbound response body for `tool_req_1`. -/
def demoResponseBody : JValue :=
  JValue.jobj [("type", JValue.jstr ("response")),
               ("request_id", JValue.jstr ("tool_req_1")),
               ("data", JValue.jnum 7)]

/-- Witness for C4 on a concrete two-entry table. -/
theorem C4_pending_request_correlation_witness :
    ("tool_req_1" : String) ≠ "" ∧
    tableLookup demoPendingTable ("tool_req_1") = some FutureState.pending ∧
    (processClientResponse ⟨some ("tool_req_1"), demoResponseBody⟩
        demoPendingTable =
      Except.ok (setFutureResult demoPendingTable ("tool_req_1")
        demoResponseBody, none) ∧
     tableLookup (setFutureResult demoPendingTable ("tool_req_1")
        demoResponseBody) ("tool_req_1") =
      some (FutureState.resolved demoResponseBody) ∧
     (∀ other, other ≠ ("tool_req_1") →
       tableLookup (setFutureResult demoPendingTable ("tool_req_1")
          demoResponseBody) other = tableLookup demoPendingTable other) ∧
     requestFromClientFinish (setFutureResult demoPendingTable ("tool_req_1")
          demoResponseBody) ("tool_req_1")
        (AwaitOutcome.resolvedIn demoResponseBody) =
      (some demoResponseBody,
       (setFutureResult demoPendingTable ("tool_req_1")
          demoResponseBody).filter (fun p => p.1 != "tool_req_1")) ∧
     ("tool_req_1" : String) ∉ tableKeys
       ((setFutureResult demoPendingTable ("tool_req_1")
          demoResponseBody).filter (fun p => p.1 != "tool_req_1")) ∧
     (∀ other, other ≠ ("tool_req_1") →
       tableLookup ((setFutureResult demoPendingTable ("tool_req_1")
            demoResponseBody).filter (fun p => p.1 != "tool_req_1")) other =
         tableLookup demoPendingTable other) ∧
     (∀ missing, tableLookup demoPendingTable missing = none →
       processClientResponse ⟨some missing, demoResponseBody⟩ demoPendingTable =
         Except.ok (demoPendingTable,
           some (("Unknown request_id: ") ++ missing))) ∧
     processClientResponse ⟨none, demoResponseBody⟩ demoPendingTable =
       Except.ok (demoPendingTable, some ("Unknown request_id: None"))) := by
  exact ⟨by decide, rfl,
    C4_pending_request_correlation demoPendingTable ("tool_req_1")
      demoResponseBody (by decide) rfl⟩

/-- A connection state with one outstanding pending request and the loop
running. -/
def sessionWithPending : WsSession :=
  { pending_requests := [("tool_req_1", FutureState.pending)],
    loop := { is_running := true },
    connectionActive := true }

/-- C5 counterexample: running the disconnect cleanup of
`websocket_endpoint` (which calls `ToolOODALoop.stop`) over a state with one
pending request leaves that entry in the table still in the `pending` state —
no pending request is resolved with a disconnect or cancellation error by the
cited code, contradicting the claim. -/
theorem C5_counterexample :
    (websocketDisconnectCleanup sessionWithPending).pending_requests =
      [("tool_req_1", FutureState.pending)] ∧
    tableLookup (websocketDisconnectCleanup sessionWithPending).pending_requests
        ("tool_req_1") = some FutureState.pending ∧
    (ToolOODALoop.stop sessionWithPending.loop).is_running = false ∧
    (websocketDisconnectCleanup sessionWithPending).pending_requests ≠ [] := by
  refine ⟨rfl, rfl, rfl, ?_⟩
  simp [websocketDisconnectCleanup, sessionWithPending]

/-- C5 (amended): `ToolOODALoop.stop` only clears the running flag and
touches no pending request; the disconnect cleanup of `websocket_endpoint`
leaves the pending table exactly as it was (it stops the loop and cancels the
loop task instead).  No leak results, because the issuing handler's `finally`
block removes its own entry on every completion path of
`_request_from_client` — response, timeout, exception, or the cancellation
that task cancellation propagates into the in-flight await. -/
theorem C5_cleanup_resolves_nothing :
    (∀ l : ToolOODALoopState,
      (ToolOODALoop.stop l).is_running = false ∧
      (ToolOODALoop.stop l).cycle_count = l.cycle_count ∧
      (ToolOODALoop.stop l).message_history = l.message_history ∧
      (ToolOODALoop.stop l).observation_interval = l.observation_interval ∧
      (ToolOODALoop.stop l).mode = l.mode) ∧
    (∀ s : WsSession,
      (websocketDisconnectCleanup s).pending_requests = s.pending_requests) ∧
    (∀ (tbl : PendingTable) (rid : String) (o : AwaitOutcome),
      rid ∉ tableKeys (requestFromClientFinish tbl rid o).2) := by
  refine ⟨?_, ?_, ?_⟩
  · exact fun l => ⟨rfl, rfl, rfl, rfl, rfl⟩
  · exact fun s => rfl
  · intro tbl rid o
    cases o with
    | resolvedIn d => exact not_mem_tableKeys_filter tbl rid
    | timedOut => exact not_mem_tableKeys_filter tbl rid
    | raised e => exact not_mem_tableKeys_filter tbl rid
    | cancelled => exact not_mem_tableKeys_filter tbl rid

/-- C6: evaluating the sleep-interval computation of `ToolOODALoop.start` at
the failing input.  A cycle whose result declares `next_action =
"observe_again"`, with loop and handlers in their freshly-constructed state,
sleeps 5.0 seconds, not the 2.0 the claim (and lines 204-205 of the source)
prescribe: `hasattr(self.handlers, '_observation_interval')` is always true —
`AIToolHandlers.__init__` sets the attribute — so the handlers' interval
unconditionally overrides the freshly computed one.  A mode-setting tool does
override the interval for subsequent cycles, as the claim's last clause
says. -/
theorem C6_interval_observed_value :
    aiToolHandlersHasAttr ("_observation_interval") = true ∧
    nextSleepInterval (some ("observe_again")) {} initialHandlersState = 5 ∧
    (5 : ℚ) ≠ 2 ∧
    (setObservationMode initialHandlersState ("passive")
        none).1.observation_interval = 10 ∧
    nextSleepInterval (some ("wait")) {}
      (setObservationMode initialHandlersState ("passive") none).1 = 10 ∧
    nextSleepInterval (some ("observe_again")) {}
      (setObservationMode initialHandlersState ("intervention") none).1 = 1 := by
  refine ⟨rfl, ?_, by norm_num, ?_, ?_, ?_⟩
  · rfl
  · rfl
  · rfl
  · rfl

/-- A concrete student model. -/
def demoStudentModel : StudentModel :=
  { student_id := "student_42",
    competencies := [("algebra", CompetencyLevel.struggling)] }

/-- Arguments carrying a maximal understanding delta and a note. -/
def demoUpdateArgs : UpdateModelArgs :=
  { understanding_delta := some 1, note := some ("saw progress") }

/-- C7 counterexample: a call providing a nonzero understanding delta and a
note reports success, records the requested changes in its returned payload
and invokes the repository save — yet the in-memory Student Model after the
call is the model before it, unchanged in every field: no delta or field was
applied to it, contradicting the claim. -/
theorem C7_counterexample :
    (updateStudentModel demoUpdateArgs (some demoStudentModel) true
        (Except.ok ())).model = some demoStudentModel ∧
    (updateStudentModel demoUpdateArgs (some demoStudentModel) true
        (Except.ok ())).saveCalled = true ∧
    (updateStudentModel demoUpdateArgs (some demoStudentModel) true
        (Except.ok ())).result =
      JValue.jobj [("updated", JValue.jbool true),
                   ("changes", JValue.jobj
                     [("understanding_delta", JValue.jnum 1),
                      ("note", JValue.jstr ("saw progress")),
                      ("saved", JValue.jbool true)])] := by
  refine ⟨rfl, rfl, rfl⟩

/-- C7 (amended): `update_student_model` applies nothing to the in-memory
Student Model — after any call the model is exactly the model before it —
and only records the provided deltas/fields in the returned `changes`
payload, persisting the (unchanged) model via the repository exactly when a
repository is present and at least one change was recorded; with no model
loaded it returns an error payload and saves nothing. -/
theorem C7_update_student_model_records_only (args : UpdateModelArgs)
    (m : StudentModel) (hasRepo : Bool) (saveRes : Except String Unit) :
    (updateStudentModel args (some m) hasRepo saveRes).model = some m ∧
    (updateStudentModel args (some m) hasRepo saveRes).saveCalled =
      (hasRepo && !(modelUpdates args).isEmpty) ∧
    (updateStudentModel args none hasRepo saveRes).model = none ∧
    (updateStudentModel args none hasRepo saveRes).saveCalled = false := by
  exact ⟨rfl, rfl, rfl, rfl⟩

/-- One check block never moves the clock backwards. -/
theorem checkStep_time_mono (requested : Bool) (cost : ℚ) (hit : Bool)
    (label : String) (acc : ℚ × Option String) (hc : 0 ≤ cost) :
    acc.1 ≤ (checkStep requested cost hit label acc).1 := by
  cases acc with
  | mk t e =>
    cases e with
    | some ev => simp [checkStep]
    | none =>
      simp only [checkStep]
      by_cases hr : requested
      · rw [if_pos hr]
        simpa using hc
      · rw [if_neg hr]

/-- One poll iteration never moves the clock backwards. -/
theorem pollChecks_time_mono (env : PollEnv) (events : List String) (n : ℕ)
    (t : ℚ) (h1 : 0 ≤ env.statusTime n) (h2 : 0 ≤ env.wbTime n)
    (h3 : 0 ≤ env.anyTime n) :
    t ≤ (pollChecks env events n t).1 := by
  simp only [pollChecks]
  refine le_trans ?_ (checkStep_time_mono _ _ _ _ _ h3)
  refine le_trans ?_ (checkStep_time_mono _ _ _ _ _ le_rfl)
  refine le_trans ?_ (checkStep_time_mono _ _ _ _ _ h2)
  exact checkStep_time_mono _ _ _ _ _ h1

/-- The poll loop only ever advances the clock. -/
theorem waitLoop_time_mono (env : PollEnv) (events : List String)
    (timeout : ℚ)
    (hst : ∀ n, 0 ≤ env.statusTime n) (hwb : ∀ n, 0 ≤ env.wbTime n)
    (hany : ∀ n, 0 ≤ env.anyTime n) :
    ∀ (fuel n : ℕ) (t : ℚ), t ≤ (waitLoop env events timeout fuel n t).2 := by
  intro fuel
  induction fuel with
  | zero =>
    intro n t
    simp [waitLoop]
  | succ f ih =>
    intro n t
    simp only [waitLoop]
    by_cases htime : t < timeout
    · rw [if_pos htime]
      have hpc := pollChecks_time_mono env events n t (hst n) (hwb n) (hany n)
      cases hres : pollChecks env events n t with
      | mk t1 eopt =>
        rw [hres] at hpc
        cases eopt with
        | some e => simpa [hres] using hpc
        | none =>
          show t ≤ (waitLoop env events timeout f (n + 1) (t1 + 1 / 2)).2
          have hrec := ih (n + 1) (t1 + 1 / 2)
          have hpc1 : t ≤ t1 := by simpa using hpc
          linarith
    · rw [if_neg htime]

/-- C8: for every `m ≥ 0` and every call of `wait_for_event` with
`min_wait_seconds = m`, the elapsed time at return is at least `m`, whatever
the requested events, the timeout, and what the collaborators report — in
particular even when a requested event condition is already satisfied at
call time.  (Transport checks take nonnegative time.) -/
theorem C8_wait_for_event_min_wait (env : PollEnv) (events : List String)
    (timeoutSeconds minWaitSeconds : ℚ) (fuel : ℕ)
    (hm : 0 ≤ minWaitSeconds)
    (hst : ∀ n, 0 ≤ env.statusTime n) (hwb : ∀ n, 0 ≤ env.wbTime n)
    (hany : ∀ n, 0 ≤ env.anyTime n) :
    minWaitSeconds ≤
      (waitForEvent env events timeoutSeconds minWaitSeconds fuel).2 := by
  simp only [waitForEvent]
  by_cases hpos : minWaitSeconds > 0
  · rw [if_pos hpos]
    have := waitLoop_time_mono env events timeoutSeconds hst hwb hany fuel 0
      (0 + minWaitSeconds)
    linarith
  · rw [if_neg hpos]
    have h0 : minWaitSeconds = 0 := le_antisymm (by linarith [not_lt.mp hpos]) hm
    have := waitLoop_time_mono env events timeoutSeconds hst hwb hany fuel 0 0
    linarith

/-- A poll environment where speech is already available at call time and
every check is instantaneous. -/
def instantSpeechEnv : PollEnv :=
  { statusTime := fun _ => 0, audioSegments := fun _ => 5,
    wbTime := fun _ => 0, wbHasChanges := fun _ => false,
    silenceDuration := fun _ => 0,
    anyTime := fun _ => 0, anyAudioSegments := fun _ => 0,
    anyWbChanges := fun _ => false }

/-- Witness for C8: the speech condition holds from the very first poll, yet
with `min_wait_seconds = 2` the call still takes at least 2 seconds. -/
theorem C8_wait_for_event_min_wait_witness :
    (pollChecks instantSpeechEnv [("speech")] 0 0).2 = some ("speech") ∧
    (0 : ℚ) ≤ 2 ∧
    (∀ n, (0 : ℚ) ≤ instantSpeechEnv.statusTime n) ∧
    (∀ n, (0 : ℚ) ≤ instantSpeechEnv.wbTime n) ∧
    (∀ n, (0 : ℚ) ≤ instantSpeechEnv.anyTime n) ∧
    (2 : ℚ) ≤ (waitForEvent instantSpeechEnv [("speech")] 30 2 100).2 := by
  have hst : ∀ n, (0 : ℚ) ≤ instantSpeechEnv.statusTime n := fun n => le_refl 0
  have hwb : ∀ n, (0 : ℚ) ≤ instantSpeechEnv.wbTime n := fun n => le_refl 0
  have hany : ∀ n, (0 : ℚ) ≤ instantSpeechEnv.anyTime n := fun n => le_refl 0
  exact ⟨rfl, by norm_num, hst, hwb, hany,
    C8_wait_for_event_min_wait instantSpeechEnv [("speech")] 30 2 100
      (by norm_num) hst hwb hany⟩

/-- A profile update supplying only `patience_level`. -/
def patienceOnlyArgs (p : ℚ) : UpdateProfileArgs := { patience_level := some p }

/-- C9: `update_student_profile` called with `patience_level = p` stores
`max(0.0, min(1.0, p))` — the clamp of `p` to `[0, 1]` — in the pedagogy
profile, for every `p` and regardless of repository presence or save outcome;
in particular `p = 1.5` stores `1.0` and `p = -0.3` stores `0.0`. -/
theorem C9_patience_clamped (m : StudentModel) (p : ℚ) (hasRepo : Bool)
    (saveRes : Except String Unit) :
    ((updateStudentProfile (patienceOnlyArgs p) (some m) hasRepo
        saveRes).model.map (fun mm => mm.pedagogy_profile.patience_level)) =
      some (PatienceValue.num (max 0 (min 1 p))) ∧
    ((updateStudentProfile (patienceOnlyArgs (1.5 : ℚ)) (some m) hasRepo
        saveRes).model.map (fun mm => mm.pedagogy_profile.patience_level)) =
      some (PatienceValue.num 1) ∧
    ((updateStudentProfile (patienceOnlyArgs (-0.3 : ℚ)) (some m) hasRepo
        saveRes).model.map (fun mm => mm.pedagogy_profile.patience_level)) =
      some (PatienceValue.num 0) := by
  have hgen : ∀ q : ℚ,
      ((updateStudentProfile (patienceOnlyArgs q) (some m) hasRepo
          saveRes).model.map (fun mm => mm.pedagogy_profile.patience_level)) =
        some (PatienceValue.num (clamp01 q)) := fun q => rfl
  have h15 : clamp01 (1.5 : ℚ) = 1 := by
    show max 0 (min 1 (1.5 : ℚ)) = 1
    rw [min_eq_left (by norm_num), max_eq_right (by norm_num)]
  have h03 : clamp01 (-0.3 : ℚ) = 0 := by
    show max 0 (min 1 (-0.3 : ℚ)) = 0
    rw [min_eq_right (by norm_num), max_eq_left (by norm_num)]
  refine ⟨hgen p, ?_, ?_⟩
  · rw [hgen (1.5 : ℚ), h15]
  · rw [hgen (-0.3 : ℚ), h03]

/-- The buffer grows by one entry per `add_transcript` call. -/
theorem applyTranscripts_length (s : SessionState)
    (entries : List (String × ℚ)) :
    (applyTranscripts s entries).student_speech_buffer.length =
      s.student_speech_buffer.length + entries.length := by
  induction entries generalizing s with
  | nil => simp [applyTranscripts]
  | cons e rest ih =>
    simp only [applyTranscripts]
    rw [ih]
    simp [SessionState.add_transcript]
    omega

/-- C10: however many transcript entries have been appended through
`add_transcript` — they all land in `student_speech_buffer` — the session
state has no attribute named `transcripts`, so `get_session_status` reports
`transcript_count = 0`. -/
theorem C10_transcript_count_zero (s : SessionState)
    (entries : List (String × ℚ)) (now lastSpeech lastWb : ℚ) (mode : String) :
    SessionState.getAttr (applyTranscripts s entries) ("transcripts") = none ∧
    transcriptCountOf (applyTranscripts s entries) = 0 ∧
    jobjLookup (getSessionStatus (applyTranscripts s entries) now lastSpeech
        lastWb mode) ("transcript_count") = some (JValue.jnum 0) ∧
    (applyTranscripts s entries).student_speech_buffer.length =
      s.student_speech_buffer.length + entries.length := by
  have h2 : transcriptCountOf (applyTranscripts s entries) = 0 := rfl
  refine ⟨rfl, h2, ?_, applyTranscripts_length s entries⟩
  simp [getSessionStatus, jobjLookup, h2]

end OAIT
